import Mathlib

/-!
# FRONTTODOList: the HTTP wrapper, the session manager and the task-list synchronizer

A shallow embedding of `src/services/api.js` (class `apiService`, repeated verbatim as
`ApiService` in `src/App.js`), of `AuthProvider` in `src/App.js`, of the hook
`useTodos` (`src/hooks/useTodos.js`, repeated verbatim in `src/App.js`), and of the
collaborator search of `ShareModal` in `src/App.js`.

Conventions of the embedding.

* A JavaScript value that is `null` or a string is an `Option String`; JavaScript
  truthiness of such a value is `truthy`.
* An `async` function is a pure function that receives the behaviour of the network,
  `fetch`, as an argument, and returns the state it leaves together with an
  `Except JsError _` : `.error e` is a rejected promise (a thrown `e`), `.ok v` a
  fulfilled one.
* React state (`useState`) is a record; a state setter is a record update.
* The body of a success response is read at the type the REST interface gives it (a task,
  a list of tasks, ...): there the embedding is typed where JavaScript is not. The body of
  a failure response, of which `request` reads the property `message`, is any JSON value.
* A string is a Lean `String` wherever the program only stores, compares or concatenates
  it. The query of the collaborator search, whose `length` is tested and which is handed
  to `encodeURIComponent`, is a `JsString`: a sequence of UTF-16 code units, lone
  surrogates included.
* `console.error` writes nothing that the program reads back, and is left out.
-/

namespace FrontTodoList

/-! ## Data model -/

/-- User record as the server sends it. -/
structure User where
  _id : String
  name : String
  email : String
deriving DecidableEq, Repr

/-- Task record as the server sends it; the client reads `_id`, `text`, `completed`,
`owner` and `collaborators`. -/
structure Todo where
  _id : String
  text : String
  completed : Bool
  owner : User
  collaborators : List User
deriving DecidableEq, Repr

/-- Thrown JavaScript `Error`; only its `message` is ever read. -/
structure JsError where
  message : String
deriving DecidableEq, Repr

/-- Body of a successful `/auth/login` or `/auth/register` response. -/
structure AuthData where
  token : String
  user : User
deriving DecidableEq, Repr

/-- Body of a successful share / remove-collaborator response; the hook reads `todo`. -/
structure ShareResult where
  todo : Todo
deriving DecidableEq, Repr

/-- Scalar values that the client puts into a request body. -/
inductive JsonVal where
  | str (s : String)
  | bool (b : Bool)
deriving DecidableEq, Repr

/-- Argument of `JSON.stringify` in a request body: an object literal, as its
key/value pairs in source order. The serialised text itself is not modelled. -/
abbrev JsonObj := List (String × JsonVal)

/-- Header object: its own properties in insertion order. -/
abbrev Headers := List (String × String)

/-- JavaScript truthiness of a value that is `null` or a string: `null` and the empty
string are falsy. -/
def truthy : Option String → Bool
  | none => false
  | some s => s != ""

/-! ## Parsed JSON values -/

/-- A value that `response.json()` can resolve to. A number is given by whether it is zero
and by the text that `String(n)` yields for it; how a double is printed is not modelled.
An object is given by its own properties, each key once. -/
inductive Json where
  | null
  | bool (b : Bool)
  | num (isZero : Bool) (shown : String)
  | str (s : String)
  | arr (items : List Json)
  | obj (props : List (String × Json))

/-- JavaScript truthiness of a parsed JSON value: `null`, `false`, zero and the empty
string are falsy, every array and every object is truthy. -/
def Json.truthy : Json → Bool
  | .null => false
  | .bool b => b
  | .num isZero _ => !isZero
  | .str s => s != ""
  | .arr _ => true
  | .obj _ => true

mutual
/-- The abstract operation `ToString` on a parsed JSON value, which `new Error(value)`
applies to its argument: an array is its elements joined by commas, an object is
`[object Object]`. -/
def Json.toJsString : Json → String
  | .null => "null"
  | .bool b => if b then "true" else "false"
  | .num _ shown => shown
  | .str s => s
  | .arr items => Json.joinItems items
  | .obj _ => "[object Object]"
/-- The method `Array.prototype.join` with the separator `,`. -/
def Json.joinItems : List Json → String
  | [] => ""
  | [x] => Json.itemString x
  | x :: y :: rest => Json.itemString x ++ "," ++ Json.joinItems (y :: rest)
/-- One element inside `join`: `null` gives the empty string, another value its
`ToString`. -/
def Json.itemString : Json → String
  | .null => ""
  | .bool b => if b then "true" else "false"
  | .num _ shown => shown
  | .str s => s
  | .arr items => Json.joinItems items
  | .obj _ => "[object Object]"
end

/-- The `TypeError` that reading a property of `null` throws; the wording is that of V8. -/
def nullPropertyError : JsError :=
  ⟨"Cannot read properties of null (reading " ++ String.singleton (Char.ofNat 39) ++
    "message" ++ String.singleton (Char.ofNat 39) ++ ")"⟩

/-- The expression `data.message` on a parsed JSON value: it throws on `null`, is the own
property of an object if there is one, and is `undefined` (here `none`) otherwise. -/
def Json.message : Json → Except JsError (Option Json)
  | .null => .error nullPropertyError
  | .obj props => .ok (props.lookup "message")
  | _ => .ok none

/-! ## `encodeURIComponent` -/

/-- Characters that `encodeURIComponent` leaves alone: ASCII letters, digits and
`- _ . ! ~ * ' ( )`. -/
def uriUnreserved (c : Char) : Bool :=
  c.isAlphanum || [45, 95, 46, 33, 126, 42, 39, 40, 41].contains c.toNat

/-- UTF-8 bytes of a code point. -/
def utf8Bytes (n : Nat) : List Nat :=
  if n < 0x80 then [n]
  else if n < 0x800 then [0xC0 + n / 64, 0x80 + n % 64]
  else if n < 0x10000 then [0xE0 + n / 4096, 0x80 + (n / 64) % 64, 0x80 + n % 64]
  else [0xF0 + n / 262144, 0x80 + (n / 4096) % 64, 0x80 + (n / 64) % 64, 0x80 + n % 64]

/-- Upper-case hexadecimal digit. -/
def hexDigit (n : Nat) : Char :=
  if n < 10 then Char.ofNat (48 + n) else Char.ofNat (55 + n)

/-- Escape `%XX` of one byte. -/
def percentByte (b : Nat) : List Char :=
  ['%', hexDigit (b / 16), hexDigit (b % 16)]

/-- The standard function `encodeURIComponent` on a string without lone surrogates, given
by its code points. On a JavaScript string that holds a lone surrogate the function throws
`URIError`: see `JsString.codePoints` and `ApiService.searchUsers`. -/
def encodeURIComponent (s : String) : String :=
  String.mk (s.toList.flatMap fun c =>
    if uriUnreserved c then [c] else (utf8Bytes c.toNat).flatMap percentByte)

/-! ## JavaScript strings -/

/-- A JavaScript string as the program sees it when it reads `length`: a sequence of
UTF-16 code units, in which a surrogate may stand alone. -/
structure JsString where
  units : List (Fin 65536)
deriving DecidableEq, Repr

/-- The property `length`: the number of code units. -/
def JsString.length (q : JsString) : Nat :=
  q.units.length

/-- Code units `0xD800` to `0xDBFF`. -/
def isHighSurrogate (u : Fin 65536) : Bool :=
  decide (0xD800 ≤ u.val) && decide (u.val < 0xDC00)

/-- Code units `0xDC00` to `0xDFFF`. -/
def isLowSurrogate (u : Fin 65536) : Bool :=
  decide (0xDC00 ≤ u.val) && decide (u.val < 0xE000)

/-- The code units of one code point. -/
def utf16Units (c : Char) : List (Fin 65536) :=
  if c.toNat < 0x10000 then [Fin.ofNat c.toNat]
  else [Fin.ofNat (0xD800 + (c.toNat - 0x10000) / 0x400),
    Fin.ofNat (0xDC00 + (c.toNat - 0x10000) % 0x400)]

/-- The JavaScript string with the code points of `s`. -/
def JsString.ofString (s : String) : JsString :=
  ⟨s.toList.flatMap utf16Units⟩

/-- The code points of a sequence of code units: a high surrogate and the low surrogate
after it make one code point, a surrogate without its partner makes the result `none`. -/
def codePointsOf : List (Fin 65536) → Option (List Char)
  | [] => some []
  | [u] => if isHighSurrogate u || isLowSurrogate u then none else some [Char.ofNat u.val]
  | u :: v :: rest =>
      if isHighSurrogate u then
        if isLowSurrogate v then
          (codePointsOf rest).map fun cs =>
            Char.ofNat (0x10000 + (u.val - 0xD800) * 0x400 + (v.val - 0xDC00)) :: cs
        else none
      else if isLowSurrogate u then none
      else (codePointsOf (v :: rest)).map fun cs => Char.ofNat u.val :: cs

/-- The string read by code points, `none` when it holds a lone surrogate, which is when
`encodeURIComponent` throws `URIError`. -/
def JsString.codePoints (q : JsString) : Option String :=
  (codePointsOf q.units).map String.mk

/-! ## The HTTP request wrapper (`ApiService`) -/

/-- Constant `API_BASE_URL` of `src/App.js`, also the fallback value in `src/services/api.js`. -/
def API_BASE_URL : String := "http://localhost:5000/api"

/-- The `options` argument of `request`: the properties an object literal may carry.
`none` is an absent property. -/
structure RequestOptions where
  method : Option String := none
  body : Option JsonObj := none
  headers : Option Headers := none
deriving DecidableEq, Repr

/-- The `config` object handed to `fetch`. -/
structure RequestConfig where
  headers : Headers
  method : Option String
  body : Option JsonObj
deriving DecidableEq, Repr

/-- What the server answered, as `request` looks at it. -/
inductive Response (α : Type) where
  /-- Status `response.ok`, and `response.json()` resolves to `data`. -/
  | success (data : α)
  /-- Not `response.ok`, and `response.json()` resolves to `body`. -/
  | failure (body : Json)
  /-- The promise `response.json()` rejects with `err`: the body is not JSON. -/
  | unparsable (ok : Bool) (err : JsError)

/-- Outcome of `await fetch(url, config)`. -/
inductive FetchOutcome (α : Type) where
  /-- The promise `fetch` rejects: no response at all. -/
  | rejected (err : JsError)
  | response (r : Response α)

/-- The network: what `fetch(url, config)` settles to. -/
abbrev Fetch (α : Type) := String → RequestConfig → FetchOutcome α

/-- The singleton `apiService`: its only field is the in-memory credential. -/
structure ApiService where
  token : Option String
deriving DecidableEq, Repr

/-- The browser's `localStorage`, of which only the entry `'token'` is used. -/
structure LocalStorage where
  token : Option String
deriving DecidableEq, Repr

/-- The `constructor()`: `this.token = localStorage.getItem('token')`. -/
def ApiService.new (ls : LocalStorage) : ApiService :=
  { token := ls.token }

/-- The method `setToken(token)`. -/
def ApiService.setToken (_api : ApiService) (ls : LocalStorage) (token : Option String) :
    ApiService × LocalStorage :=
  let api : ApiService := { token := token }
  if truthy token then (api, { ls with token := token })
  else (api, { ls with token := none })

/-- The method `getHeaders()`. -/
def ApiService.getHeaders (api : ApiService) : Headers :=
  let headers : Headers := [("Content-Type", "application/json")]
  match api.token with
  | some t => if truthy (some t) then headers ++ [("Authorization", "Bearer " ++ t)] else headers
  | none => headers

/-- The object `config` of `request`: `headers: this.getHeaders()` and then the spread of
`options`, whose own `headers` property, if there is one, wins. -/
def ApiService.config (api : ApiService) (options : RequestOptions) : RequestConfig :=
  { headers := match options.headers with
      | some h => h
      | none => api.getHeaders
    method := options.method
    body := options.body }

/-- The message of `new Error(m || 'Error en la petición')`, where `m` is the value of
`data.message` and `none` stands for `undefined`: the string conversion of `m` when `m` is
truthy, the generic message otherwise. -/
def errorText : Option Json → String
  | some m => if m.truthy then m.toJsString else "Error en la petición"
  | none => "Error en la petición"

/-- The `try` block of `request` after `fetch` has settled: parse, check `response.ok`,
throw `new Error(data.message || 'Error en la petición')` or return `data`; the `catch`
rethrows. Evaluating `data.message` may itself throw, and `new Error` turns its argument
into a string. -/
def settle {α : Type} : FetchOutcome α → Except JsError α
  | .rejected err => .error err
  | .response (.unparsable _ err) => .error err
  | .response (.failure body) =>
      match body.message with
      | .error err => .error err
      | .ok m => .error ⟨errorText m⟩
  | .response (.success data) => .ok data

/-- The method `request(endpoint, options)`; a call without `options` passes `{}`. -/
def ApiService.request {α : Type} (api : ApiService) (fetch : Fetch α) (endpoint : String)
    (options : RequestOptions) : Except JsError α :=
  let url := API_BASE_URL ++ endpoint
  let config := api.config options
  settle (fetch url config)

/-- The calls that the methods of `ApiService` pass to `request`, one constructor per
method, with the method's arguments. -/
inductive ApiCall where
  | login (email password : String)
  | register (name email password : String)
  | getProfile
  | getTodos
  | createTodo (text : String)
  | updateTodo (id : String) (updates : JsonObj)
  | deleteTodo (id : String)
  | shareTodo (todoId email : String)
  | removeCollaborator (todoId userId : String)
  | searchUsers (query : String)
deriving DecidableEq, Repr

/-- First argument of `this.request(...)` in each method. -/
def ApiCall.endpoint : ApiCall → String
  | .login _ _ => "/auth/login"
  | .register _ _ _ => "/auth/register"
  | .getProfile => "/auth/me"
  | .getTodos => "/todos"
  | .createTodo _ => "/todos"
  | .updateTodo id _ => "/todos/" ++ id
  | .deleteTodo id => "/todos/" ++ id
  | .shareTodo todoId _ => "/todos/" ++ todoId ++ "/share"
  | .removeCollaborator todoId userId => "/todos/" ++ todoId ++ "/collaborators/" ++ userId
  | .searchUsers query => "/users/search?q=" ++ encodeURIComponent query

/-- Second argument of `this.request(...)` in each method (`{}` when there is none). -/
def ApiCall.options : ApiCall → RequestOptions
  | .login email password =>
      { method := some "POST", body := some [("email", .str email), ("password", .str password)] }
  | .register name email password =>
      { method := some "POST",
        body := some [("name", .str name), ("email", .str email), ("password", .str password)] }
  | .getProfile => {}
  | .getTodos => {}
  | .createTodo text => { method := some "POST", body := some [("text", .str text)] }
  | .updateTodo _ updates => { method := some "PUT", body := some updates }
  | .deleteTodo _ => { method := some "DELETE" }
  | .shareTodo _ email => { method := some "POST", body := some [("email", .str email)] }
  | .removeCollaborator _ _ => { method := some "DELETE" }
  | .searchUsers _ => {}

/-- The shape `return this.request(endpoint, options)` shared by the methods. -/
def ApiService.send {α : Type} (api : ApiService) (fetch : Fetch α) (call : ApiCall) :
    Except JsError α :=
  api.request fetch call.endpoint call.options

/-- The method `login(email, password)`. -/
def ApiService.login (api : ApiService) (ls : LocalStorage) (fetch : Fetch AuthData)
    (email password : String) : (ApiService × LocalStorage) × Except JsError AuthData :=
  match api.send fetch (.login email password) with
  | .error err => ((api, ls), .error err)
  | .ok data => (api.setToken ls (some data.token), .ok data)

/-- The method `register(name, email, password)`. -/
def ApiService.register (api : ApiService) (ls : LocalStorage) (fetch : Fetch AuthData)
    (name email password : String) : (ApiService × LocalStorage) × Except JsError AuthData :=
  match api.send fetch (.register name email password) with
  | .error err => ((api, ls), .error err)
  | .ok data => (api.setToken ls (some data.token), .ok data)

/-- The method `getProfile()`. -/
def ApiService.getProfile (api : ApiService) (fetch : Fetch User) : Except JsError User :=
  api.send fetch .getProfile

/-- The method `logout()`: `this.setToken(null)`. -/
def ApiService.logout (api : ApiService) (ls : LocalStorage) : ApiService × LocalStorage :=
  api.setToken ls none

/-- The method `getTodos()`. -/
def ApiService.getTodos (api : ApiService) (fetch : Fetch (List Todo)) :
    Except JsError (List Todo) :=
  api.send fetch .getTodos

/-- The method `createTodo(text)`. -/
def ApiService.createTodo (api : ApiService) (fetch : Fetch Todo) (text : String) :
    Except JsError Todo :=
  api.send fetch (.createTodo text)

/-- The method `updateTodo(id, updates)`. -/
def ApiService.updateTodo (api : ApiService) (fetch : Fetch Todo) (id : String)
    (updates : JsonObj) : Except JsError Todo :=
  api.send fetch (.updateTodo id updates)

/-- The method `deleteTodo(id)`; the caller ignores the body, left at any type. -/
def ApiService.deleteTodo {α : Type} (api : ApiService) (fetch : Fetch α) (id : String) :
    Except JsError α :=
  api.send fetch (.deleteTodo id)

/-- The method `shareTodo(todoId, email)`. -/
def ApiService.shareTodo (api : ApiService) (fetch : Fetch ShareResult) (todoId email : String) :
    Except JsError ShareResult :=
  api.send fetch (.shareTodo todoId email)

/-- The method `removeCollaborator(todoId, userId)`. -/
def ApiService.removeCollaborator (api : ApiService) (fetch : Fetch ShareResult)
    (todoId userId : String) : Except JsError ShareResult :=
  api.send fetch (.removeCollaborator todoId userId)

/-- One call of `fetch`: the url and the config it was given. -/
abbrev Sent := String × RequestConfig

/-- The one call of `fetch` that `request` makes for a method call of `ApiService`. -/
def ApiService.sent (api : ApiService) (call : ApiCall) : Sent :=
  (API_BASE_URL ++ call.endpoint, api.config call.options)

/-- The method `searchUsers(query)`, with the calls of `fetch` it made. Its argument of
`request` is a template literal that holds `encodeURIComponent(query)`: on a query with a
lone surrogate that throws `URIError` and the method rejects before `request` is called;
otherwise the call is that of `ApiCall.searchUsers` on the code points of the query. -/
def ApiService.searchUsers (api : ApiService) (fetch : Fetch (List User)) (query : JsString) :
    Except JsError (List User) × List Sent :=
  match query.codePoints with
  | none => (.error ⟨"URI malformed"⟩, [])
  | some q => (api.send fetch (.searchUsers q), [api.sent (.searchUsers q)])

/-! ## The session manager (`AuthProvider`) -/

/-- Everything the session manager reads and writes: the singleton `apiService`, the
browser storage, and the two `useState` cells `user` and `loading` of `AuthProvider`. -/
structure Session where
  api : ApiService
  localStorage : LocalStorage
  user : Option User
  loading : Bool
deriving DecidableEq, Repr

/-- State when `AuthProvider` mounts: the module has built `apiService` from the storage,
`useState(null)` for `user` and `useState(true)` for `loading`. -/
def AuthProvider.initial (ls : LocalStorage) : Session :=
  { api := ApiService.new ls, localStorage := ls, user := none, loading := true }

/-- The startup `useEffect` of `AuthProvider` (the spec's `restoreSession`), run until the
promise chain `getProfile().then(..).catch(..).finally(..)` has settled. The second
component is how that chain settles. -/
def AuthProvider.restoreSession (fetch : Fetch User) (s : Session) :
    Session × Except JsError Unit :=
  let token := s.localStorage.token
  if truthy token then
    let (api, ls) := s.api.setToken s.localStorage token
    let s1 : Session := { s with api := api, localStorage := ls }
    match s1.api.getProfile fetch with
    | .ok userData =>
        -- .then(userData => setUser(userData)), then .finally(() => setLoading(false))
        ({ s1 with user := some userData, loading := false }, .ok ())
    | .error _ =>
        -- .catch: localStorage.removeItem('token'), then .finally(() => setLoading(false))
        ({ s1 with localStorage := { s1.localStorage with token := none }, loading := false },
          .ok ())
  else
    ({ s with loading := false }, .ok ())

/-- The function `login` of `AuthProvider`. -/
def AuthProvider.login (fetch : Fetch AuthData) (s : Session) (email password : String) :
    Session × Except JsError AuthData :=
  match s.api.login s.localStorage fetch email password with
  | ((api, ls), .error err) => ({ s with api := api, localStorage := ls }, .error err)
  | ((api, ls), .ok data) =>
      ({ s with api := api, localStorage := ls, user := some data.user }, .ok data)

/-- The function `register` of `AuthProvider`. -/
def AuthProvider.register (fetch : Fetch AuthData) (s : Session)
    (name email password : String) : Session × Except JsError AuthData :=
  match s.api.register s.localStorage fetch name email password with
  | ((api, ls), .error err) => ({ s with api := api, localStorage := ls }, .error err)
  | ((api, ls), .ok data) =>
      ({ s with api := api, localStorage := ls, user := some data.user }, .ok data)

/-- The function `logout` of `AuthProvider`: `apiService.logout(); setUser(null)`. -/
def AuthProvider.logout (s : Session) : Session :=
  let (api, ls) := s.api.logout s.localStorage
  { s with api := api, localStorage := ls, user := none }

/-! ## The task-list synchronizer (`useTodos`) -/

/-- The three `useState` cells of `useTodos`. -/
structure TodosState where
  todos : List Todo
  loading : Bool
  error : Option String
deriving DecidableEq, Repr

namespace useTodos

/-- Initial cells: `useState([])`, `useState(false)`, `useState(null)`. -/
def initial : TodosState :=
  { todos := [], loading := false, error := none }

/-- The function `loadTodos`; it never rejects. -/
def loadTodos (api : ApiService) (fetch : Fetch (List Todo)) (s : TodosState) : TodosState :=
  let s1 := { s with loading := true, error := none }
  match api.getTodos fetch with
  | .ok todosData => { s1 with todos := todosData, loading := false }
  | .error err => { s1 with error := some err.message, loading := false }

/-- The function `addTodo`. -/
def addTodo (api : ApiService) (fetch : Fetch Todo) (s : TodosState) (text : String) :
    TodosState × Except JsError Todo :=
  match api.createTodo fetch text with
  | .ok newTodo => ({ s with todos := s.todos ++ [newTodo] }, .ok newTodo)
  | .error err => ({ s with error := some err.message }, .error err)

/-- The function `updateTodo`. -/
def updateTodo (api : ApiService) (fetch : Fetch Todo) (s : TodosState) (id : String)
    (updates : JsonObj) : TodosState × Except JsError Todo :=
  match api.updateTodo fetch id updates with
  | .ok updatedTodo =>
      ({ s with todos := s.todos.map fun todo => if todo._id = id then updatedTodo else todo },
        .ok updatedTodo)
  | .error err => ({ s with error := some err.message }, .error err)

/-- The function `deleteTodo`. -/
def deleteTodo {α : Type} (api : ApiService) (fetch : Fetch α) (s : TodosState) (id : String) :
    TodosState × Except JsError Unit :=
  match api.deleteTodo fetch id with
  | .ok _ => ({ s with todos := s.todos.filter fun todo => todo._id != id }, .ok ())
  | .error err => ({ s with error := some err.message }, .error err)

/-- The function `shareTodo`. -/
def shareTodo (api : ApiService) (fetch : Fetch ShareResult) (s : TodosState)
    (todoId email : String) : TodosState × Except JsError ShareResult :=
  match api.shareTodo fetch todoId email with
  | .ok result =>
      ({ s with todos := s.todos.map fun todo => if todo._id = todoId then result.todo else todo },
        .ok result)
  | .error err => ({ s with error := some err.message }, .error err)

/-- The function `removeCollaborator`. -/
def removeCollaborator (api : ApiService) (fetch : Fetch ShareResult) (s : TodosState)
    (todoId userId : String) : TodosState × Except JsError ShareResult :=
  match api.removeCollaborator fetch todoId userId with
  | .ok result =>
      ({ s with todos := s.todos.map fun todo => if todo._id = todoId then result.todo else todo },
        .ok result)
  | .error err => ({ s with error := some err.message }, .error err)

end useTodos

/-! ## The collaborator search of `ShareModal` -/

/-- The five `useState` cells of `ShareModal`. -/
structure ShareModalState where
  email : JsString
  loading : Bool
  error : String
  searchResults : List User
  searching : Bool
deriving DecidableEq, Repr

namespace ShareModal

/-- Initial cells of `ShareModal`. -/
def initial : ShareModalState :=
  { email := ⟨[]⟩, loading := false, error := "", searchResults := [], searching := false }

/-- The function `searchUsers` of `ShareModal`; it never rejects. The second component
lists the calls of `fetch` it made, in order. -/
def searchUsers (api : ApiService) (fetch : Fetch (List User)) (s : ShareModalState)
    (query : JsString) : ShareModalState × List Sent :=
  if query.length < 2 then
    ({ s with searchResults := [] }, [])
  else
    let s1 := { s with searching := true }
    match api.searchUsers fetch query with
    | (.ok results, sent) => ({ s1 with searchResults := results, searching := false }, sent)
    | (.error _, sent) => ({ s1 with searching := false }, sent)

/-- The function `handleEmailChange`: `setEmail(value); searchUsers(value)`. -/
def handleEmailChange (api : ApiService) (fetch : Fetch (List User)) (s : ShareModalState)
    (value : JsString) : ShareModalState × List Sent :=
  searchUsers api fetch { s with email := value } value

end ShareModal

/-! ## Sequences of synchronizer operations and of login attempts -/

/-- Whether a promise was fulfilled. -/
def succeeded {ε α : Type} : Except ε α → Bool
  | .ok _ => true
  | .error _ => false

/-- One completed call of a function of `useTodos`, with the network it ran on. -/
inductive TodoEvent where
  | load (fetch : Fetch (List Todo))
  | create (fetch : Fetch Todo) (text : String)
  | update (fetch : Fetch Todo) (id : String) (updates : JsonObj)
  | delete (fetch : Fetch Unit) (id : String)
  | share (fetch : Fetch ShareResult) (todoId email : String)
  | removeCollaborator (fetch : Fetch ShareResult) (todoId userId : String)

/-- State of the hook after the call. -/
def TodoEvent.apply (api : ApiService) (s : TodosState) : TodoEvent → TodosState
  | .load fetch => useTodos.loadTodos api fetch s
  | .create fetch text => (useTodos.addTodo api fetch s text).1
  | .update fetch id updates => (useTodos.updateTodo api fetch s id updates).1
  | .delete fetch id => (useTodos.deleteTodo api fetch s id).1
  | .share fetch todoId email => (useTodos.shareTodo api fetch s todoId email).1
  | .removeCollaborator fetch todoId userId =>
      (useTodos.removeCollaborator api fetch s todoId userId).1

/-- State of the hook after a sequence of calls, each completed before the next. -/
def useTodos.run (api : ApiService) : List TodoEvent → TodosState → TodosState
  | [], s => s
  | e :: es, s => useTodos.run api es (e.apply api s)

/-- Whether the call is one of the five mutating ones and its remote call succeeded. -/
def TodoEvent.mutatedOk (api : ApiService) : TodoEvent → Bool
  | .load _ => false
  | .create fetch text => succeeded (api.createTodo fetch text)
  | .update fetch id updates => succeeded (api.updateTodo fetch id updates)
  | .delete fetch id => succeeded (api.deleteTodo fetch id)
  | .share fetch todoId email => succeeded (api.shareTodo fetch todoId email)
  | .removeCollaborator fetch todoId userId =>
      succeeded (api.removeCollaborator fetch todoId userId)

/-- The server answers the call, made in state `s`, as a server that keeps ids apart
would: a loaded list has pairwise distinct ids, a created task has an id that the
collection does not hold, and the record returned for an update, a share or a collaborator
removal of `id` carries the id `id`. Nothing is asked of a failing call or of a delete. -/
def TodoEvent.keepsIdsApart (api : ApiService) (s : TodosState) : TodoEvent → Prop
  | .load fetch => ∀ srv, api.getTodos fetch = .ok srv → (srv.map Todo._id).Nodup
  | .create fetch text =>
      ∀ t, api.createTodo fetch text = .ok t → t._id ∉ s.todos.map Todo._id
  | .update fetch id updates => ∀ r, api.updateTodo fetch id updates = .ok r → r._id = id
  | .delete _ _ => True
  | .share fetch todoId email =>
      ∀ r, api.shareTodo fetch todoId email = .ok r → r.todo._id = todoId
  | .removeCollaborator fetch todoId userId =>
      ∀ r, api.removeCollaborator fetch todoId userId = .ok r → r.todo._id = todoId

/-- Every call of the sequence, run from `s`, is answered as `keepsIdsApart` says. -/
def keepsIdsApartFrom (api : ApiService) : TodosState → List TodoEvent → Prop
  | _, [] => True
  | s, e :: es => e.keepsIdsApart api s ∧ keepsIdsApartFrom api (e.apply api s) es

/-- One call of `login` or `register` of `AuthProvider`, with the network it ran on. -/
inductive AuthAttempt where
  | login (fetch : Fetch AuthData) (email password : String)
  | register (fetch : Fetch AuthData) (name email password : String)

/-- The call of `fetch` that the attempt makes from session `s`. -/
def AuthAttempt.sent (s : Session) : AuthAttempt → Sent
  | .login _ email password => s.api.sent (.login email password)
  | .register _ name email password => s.api.sent (.register name email password)

/-- Session after the attempt, and how the attempt settled. -/
def AuthAttempt.apply (s : Session) : AuthAttempt → Session × Except JsError AuthData
  | .login fetch email password => AuthProvider.login fetch s email password
  | .register fetch name email password => AuthProvider.register fetch s name email password

/-- Run the attempts in order: the session at the end and the calls of `fetch` made. -/
def AuthProvider.attempts : List AuthAttempt → Session → Session × List Sent
  | [], s => (s, [])
  | a :: as, s =>
      let r := AuthProvider.attempts as (a.apply s).1
      (r.1, a.sent s :: r.2)

/-! ## Vocabulary of the statements -/

/-- The updater that `updateTodo`, `shareTodo` and `removeCollaborator` pass to
`setTodos`: `prev.map(todo => todo._id === id ? r : todo)`. -/
def patch (id : String) (r : Todo) (c : List Todo) : List Todo :=
  c.map fun todo => if todo._id = id then r else todo

/-- Number of elements of a collection that carry the id `id`. -/
def countId (id : String) (c : List Todo) : Nat :=
  c.countP fun todo => todo._id == id

/-! ## Sample data -/

/-- A user. -/
def sampleUser : User := { _id := "u1", name := "Ana", email := "ana@x.com" }

/-- A task. -/
def sampleTodo : Todo :=
  { _id := "1", text := "buy milk", completed := false, owner := sampleUser, collaborators := [] }

/-- A second task. -/
def otherTodo : Todo :=
  { _id := "2", text := "walk dog", completed := false, owner := sampleUser, collaborators := [] }

/-- A network on which every request gets no response. -/
def offline {α : Type} : Fetch α := fun _ _ => .rejected ⟨"Failed to fetch"⟩

/-- A network that answers every request with success status and body `data`. -/
def answering {α : Type} (data : α) : Fetch α := fun _ _ => .response (.success data)

/-- A network that answers every request with a failure status and a JSON object whose
only property is `message`, or that has no property when `message` is `none`. -/
def refusing {α : Type} (message : Option String) : Fetch α :=
  fun _ _ => .response (.failure (match message with
    | some m => .obj [("message", .str m)]
    | none => .obj []))

/-- A network that answers every request with a failure status and the JSON body `body`. -/
def refusingWith {α : Type} (body : Json) : Fetch α :=
  fun _ _ => .response (.failure body)

/-- A network that answers every request with a success status and an empty body, on which
`response.json()` rejects. -/
def noContent {α : Type} : Fetch α :=
  fun _ _ => .response (.unparsable true ⟨"Unexpected end of JSON input"⟩)

/-! ## Lemmas on the two list updates of the synchronizer -/

section ListLemmas

theorem patch_length (id : String) (r : Todo) (l : List Todo) :
    (patch id r l).length = l.length := by
  simp [patch]

theorem patch_get_hit (id : String) (r : Todo) (l : List Todo) (k : Nat) (t : Todo)
    (hk : l[k]? = some t) (hi : t._id = id) : (patch id r l)[k]? = some r := by
  simp [patch, List.getElem?_map, hk, hi]

theorem patch_get_miss (id : String) (r : Todo) (l : List Todo) (k : Nat) (t : Todo)
    (hk : l[k]? = some t) (hi : t._id ≠ id) : (patch id r l)[k]? = some t := by
  simp [patch, List.getElem?_map, hk, hi]

theorem patch_absent (id : String) (r : Todo) (l : List Todo)
    (h : ∀ t ∈ l, t._id ≠ id) : patch id r l = l := by
  induction l with
  | nil => rfl
  | cons a m ih =>
      have ha : a._id ≠ id := h a (List.mem_cons_self a m)
      have hl : patch id r m = m := ih fun t ht => h t (List.mem_cons_of_mem a ht)
      simp only [patch, List.map_cons, if_neg ha] at hl ⊢
      rw [hl]

theorem filter_ne_length (id : String) (l : List Todo) :
    (l.filter fun todo => todo._id != id).length + countId id l = l.length := by
  induction l with
  | nil => rfl
  | cons x m ih =>
      by_cases hx : x._id = id
      · simp [countId, List.filter_cons, List.countP_cons, hx] at ih ⊢
        omega
      · simp [countId, List.filter_cons, List.countP_cons, hx] at ih ⊢
        omega

theorem filter_ne_sublist_patch (id : String) (r : Todo) (l : List Todo) :
    (l.filter fun todo => todo._id != id).Sublist (patch id r l) := by
  induction l with
  | nil => simp [patch]
  | cons x m ih =>
      by_cases hx : x._id = id
      · simpa [patch, List.filter_cons, hx] using List.Sublist.cons r ih
      · simpa [patch, List.filter_cons, hx] using ih

end ListLemmas

/-! ## Shape of each synchronizer operation on success and on failure -/

section Shapes

open useTodos

theorem addTodo_ok (api : ApiService) (fetch : Fetch Todo) (s : TodosState) (text : String)
    (t : Todo) (h : api.createTodo fetch text = .ok t) :
    addTodo api fetch s text = ({ s with todos := s.todos ++ [t] }, .ok t) := by
  simp [addTodo, h]

theorem updateTodo_ok (api : ApiService) (fetch : Fetch Todo) (s : TodosState) (id : String)
    (updates : JsonObj) (r : Todo) (h : api.updateTodo fetch id updates = .ok r) :
    updateTodo api fetch s id updates = ({ s with todos := patch id r s.todos }, .ok r) := by
  simp [updateTodo, h, patch]

theorem shareTodo_ok (api : ApiService) (fetch : Fetch ShareResult) (s : TodosState)
    (id email : String) (r : ShareResult) (h : api.shareTodo fetch id email = .ok r) :
    shareTodo api fetch s id email = ({ s with todos := patch id r.todo s.todos }, .ok r) := by
  simp [shareTodo, h, patch]

theorem removeCollaborator_ok (api : ApiService) (fetch : Fetch ShareResult) (s : TodosState)
    (id userId : String) (r : ShareResult)
    (h : api.removeCollaborator fetch id userId = .ok r) :
    removeCollaborator api fetch s id userId =
      ({ s with todos := patch id r.todo s.todos }, .ok r) := by
  simp [removeCollaborator, h, patch]

theorem deleteTodo_ok {α : Type} (api : ApiService) (fetch : Fetch α) (s : TodosState)
    (id : String) (d : α) (h : api.deleteTodo fetch id = .ok d) :
    deleteTodo api fetch s id =
      ({ s with todos := s.todos.filter fun todo => todo._id != id }, .ok ()) := by
  simp [deleteTodo, h]

theorem send_answering {α : Type} (api : ApiService) (data : α) (call : ApiCall) :
    api.send (answering data) call = .ok data := rfl

theorem send_offline {α : Type} (api : ApiService) (call : ApiCall) :
    api.send (offline : Fetch α) call = .error ⟨"Failed to fetch"⟩ := rfl

end Shapes

/-! ## The synchronizer: create, patch, delete, load -/

section Synchronizer

open useTodos

/-- C1, as stated, fails: when the collection already holds the record that the server
returns for a create, the record is appended all the same and is then in the collection
twice. -/
theorem addTodo_duplicates_returned_task :
    (addTodo ⟨none⟩ (answering sampleTodo) ⟨[sampleTodo], false, none⟩ "buy milk").2
        = .ok sampleTodo ∧
      (addTodo ⟨none⟩ (answering sampleTodo) ⟨[sampleTodo], false, none⟩ "buy milk").1.todos
        = [sampleTodo, sampleTodo] ∧
      List.count sampleTodo
        (addTodo ⟨none⟩ (answering sampleTodo) ⟨[sampleTodo], false, none⟩ "buy milk").1.todos
        = 2 :=
  ⟨rfl, rfl, by decide⟩

/-- C1, amended: a successful `addTodo` returns the created task `t` and leaves the
collection `c ++ [t]`: `t` is the last element, the first `|c|` elements are `c` in its
order, and `t` occurs once more than it did in `c` (so exactly once when `c` did not hold
it); likewise for the number of elements carrying the id of `t`. -/
theorem addTodo_appends (api : ApiService) (fetch : Fetch Todo) (s : TodosState)
    (text : String) (t : Todo) (h : api.createTodo fetch text = .ok t) :
    (addTodo api fetch s text).2 = .ok t ∧
      (addTodo api fetch s text).1.todos = s.todos ++ [t] ∧
      (addTodo api fetch s text).1.todos.getLast? = some t ∧
      (addTodo api fetch s text).1.todos.take s.todos.length = s.todos ∧
      List.count t (addTodo api fetch s text).1.todos = List.count t s.todos + 1 ∧
      (t ∉ s.todos → List.count t (addTodo api fetch s text).1.todos = 1) ∧
      countId t._id (addTodo api fetch s text).1.todos = countId t._id s.todos + 1 := by
  rw [addTodo_ok api fetch s text t h]
  refine ⟨rfl, rfl, by simp, by simp, by simp, ?_, by simp [countId]⟩
  intro hnot
  simp [List.count_eq_zero_of_not_mem hnot]

theorem addTodo_appends_witness :
    (addTodo ⟨none⟩ (answering otherTodo) ⟨[sampleTodo], false, none⟩ "walk dog").1.todos
        = [sampleTodo, otherTodo] ∧
      List.count otherTodo
        (addTodo ⟨none⟩ (answering otherTodo) ⟨[sampleTodo], false, none⟩ "walk dog").1.todos
        = 1 :=
  have h := addTodo_appends ⟨none⟩ (answering otherTodo) ⟨[sampleTodo], false, none⟩
    "walk dog" otherTodo rfl
  ⟨h.2.1, h.2.2.2.2.2.1 (by decide)⟩

/-- C2: when the collection holds an element with id `i` at position `k`, a successful
`updateTodo`, `shareTodo` or `removeCollaborator` on `i` leaves a collection of the same
length whose element at position `k` is the record the server returned (the `todo` field
of the response for the last two). -/
theorem patch_ops_replace_in_place (api : ApiService) (s : TodosState) (i : String) (k : Nat)
    (t : Todo) (hk : s.todos[k]? = some t) (hi : t._id = i) :
    (∀ (fetch : Fetch Todo) (updates : JsonObj) (r : Todo),
        api.updateTodo fetch i updates = .ok r →
        (updateTodo api fetch s i updates).1.todos.length = s.todos.length ∧
          (updateTodo api fetch s i updates).1.todos[k]? = some r) ∧
      (∀ (fetch : Fetch ShareResult) (email : String) (r : ShareResult),
        api.shareTodo fetch i email = .ok r →
        (shareTodo api fetch s i email).1.todos.length = s.todos.length ∧
          (shareTodo api fetch s i email).1.todos[k]? = some r.todo) ∧
      (∀ (fetch : Fetch ShareResult) (userId : String) (r : ShareResult),
        api.removeCollaborator fetch i userId = .ok r →
        (removeCollaborator api fetch s i userId).1.todos.length = s.todos.length ∧
          (removeCollaborator api fetch s i userId).1.todos[k]? = some r.todo) := by
  refine ⟨?_, ?_, ?_⟩
  · intro fetch updates r h
    rw [updateTodo_ok api fetch s i updates r h]
    exact ⟨patch_length i r s.todos, patch_get_hit i r s.todos k t hk hi⟩
  · intro fetch email r h
    rw [shareTodo_ok api fetch s i email r h]
    exact ⟨patch_length i r.todo s.todos, patch_get_hit i r.todo s.todos k t hk hi⟩
  · intro fetch userId r h
    rw [removeCollaborator_ok api fetch s i userId r h]
    exact ⟨patch_length i r.todo s.todos, patch_get_hit i r.todo s.todos k t hk hi⟩

theorem patch_ops_replace_in_place_witness :
    (updateTodo ⟨none⟩ (answering { otherTodo with completed := true })
        ⟨[sampleTodo, otherTodo], false, none⟩ "2" [("completed", .bool true)]).1.todos.length
        = 2 ∧
      (updateTodo ⟨none⟩ (answering { otherTodo with completed := true })
        ⟨[sampleTodo, otherTodo], false, none⟩ "2" [("completed", .bool true)]).1.todos[1]?
        = some { otherTodo with completed := true } :=
  (patch_ops_replace_in_place ⟨none⟩ ⟨[sampleTodo, otherTodo], false, none⟩ "2" 1 otherTodo
    rfl rfl).1 (answering { otherTodo with completed := true }) [("completed", .bool true)]
    { otherTodo with completed := true } rfl

/-- C3, as stated, fails: a successful `deleteTodo` of an id that no element carries
leaves the length as it was, not one less. -/
theorem deleteTodo_absent_keeps_length :
    (deleteTodo ⟨none⟩ (answering ()) ⟨[sampleTodo], false, none⟩ "2").2 = .ok () ∧
      (deleteTodo ⟨none⟩ (answering ()) ⟨[sampleTodo], false, none⟩ "2").1.todos.length + 1
        ≠ [sampleTodo].length :=
  ⟨rfl, by decide⟩

/-- C3, amended: after a successful `deleteTodo` of `i` no element with id `i` remains, and
the length has gone down by the number of elements of `c` that carried the id `i`: by
exactly one when exactly one element did. -/
theorem deleteTodo_removes_all {α : Type} (api : ApiService) (fetch : Fetch α)
    (s : TodosState) (i : String) (d : α) (h : api.deleteTodo fetch i = .ok d) :
    (∀ t ∈ (deleteTodo api fetch s i).1.todos, t._id ≠ i) ∧
      (deleteTodo api fetch s i).1.todos.length + countId i s.todos = s.todos.length ∧
      (countId i s.todos = 1 →
        (deleteTodo api fetch s i).1.todos.length + 1 = s.todos.length) := by
  rw [deleteTodo_ok api fetch s i d h]
  have hlen := filter_ne_length i s.todos
  refine ⟨?_, hlen, ?_⟩
  · intro t ht
    simp only [List.mem_filter, bne_iff_ne] at ht
    exact ht.2
  · intro h1
    simp only at hlen ⊢
    omega

theorem deleteTodo_removes_all_witness :
    (∀ t ∈ (deleteTodo ⟨none⟩ (answering ()) ⟨[sampleTodo, otherTodo], false, none⟩
        "1").1.todos, t._id ≠ "1") ∧
      (deleteTodo ⟨none⟩ (answering ()) ⟨[sampleTodo, otherTodo], false, none⟩
        "1").1.todos.length + 1 = 2 :=
  have h := deleteTodo_removes_all ⟨none⟩ (answering ())
    ⟨[sampleTodo, otherTodo], false, none⟩ "1" () rfl
  ⟨h.1, h.2.2 (by decide)⟩

/-- C4: when the remote call of `loadTodos`, `addTodo`, `updateTodo`, `deleteTodo`,
`shareTodo` or `removeCollaborator` fails, the collection after the call is the collection
before it. -/
theorem failing_call_keeps_todos (api : ApiService) (s : TodosState) :
    (∀ (fetch : Fetch (List Todo)) (e : JsError), api.getTodos fetch = .error e →
        (loadTodos api fetch s).todos = s.todos) ∧
      (∀ (fetch : Fetch Todo) (text : String) (e : JsError),
        api.createTodo fetch text = .error e →
        (addTodo api fetch s text).1.todos = s.todos ∧
          (addTodo api fetch s text).2 = .error e) ∧
      (∀ (fetch : Fetch Todo) (id : String) (updates : JsonObj) (e : JsError),
        api.updateTodo fetch id updates = .error e →
        (updateTodo api fetch s id updates).1.todos = s.todos ∧
          (updateTodo api fetch s id updates).2 = .error e) ∧
      (∀ (α : Type) (fetch : Fetch α) (id : String) (e : JsError),
        api.deleteTodo fetch id = .error e →
        (deleteTodo api fetch s id).1.todos = s.todos ∧
          (deleteTodo api fetch s id).2 = .error e) ∧
      (∀ (fetch : Fetch ShareResult) (todoId email : String) (e : JsError),
        api.shareTodo fetch todoId email = .error e →
        (shareTodo api fetch s todoId email).1.todos = s.todos ∧
          (shareTodo api fetch s todoId email).2 = .error e) ∧
      (∀ (fetch : Fetch ShareResult) (todoId userId : String) (e : JsError),
        api.removeCollaborator fetch todoId userId = .error e →
        (removeCollaborator api fetch s todoId userId).1.todos = s.todos ∧
          (removeCollaborator api fetch s todoId userId).2 = .error e) := by
  refine ⟨?_, ?_, ?_, ?_, ?_, ?_⟩
  · intro fetch e h
    simp [loadTodos, h]
  · intro fetch text e h
    simp [addTodo, h]
  · intro fetch id updates e h
    simp [updateTodo, h]
  · intro α fetch id e h
    simp [deleteTodo, h]
  · intro fetch todoId email e h
    simp [shareTodo, h]
  · intro fetch todoId userId e h
    simp [removeCollaborator, h]

theorem failing_call_keeps_todos_witness :
    (shareTodo ⟨some "tok"⟩ (refusing (some "Usuario no encontrado"))
        ⟨[sampleTodo, otherTodo], false, none⟩ "1" "bob@x.com").1.todos
        = [sampleTodo, otherTodo] ∧
      (shareTodo ⟨some "tok"⟩ (refusing (some "Usuario no encontrado"))
        ⟨[sampleTodo, otherTodo], false, none⟩ "1" "bob@x.com").2
        = .error ⟨"Usuario no encontrado"⟩ :=
  (failing_call_keeps_todos ⟨some "tok"⟩ ⟨[sampleTodo, otherTodo], false, none⟩).2.2.2.2.1
    (refusing (some "Usuario no encontrado")) "1" "bob@x.com" ⟨"Usuario no encontrado"⟩ rfl

/-- C5: a successful `updateTodo`, `shareTodo` or `removeCollaborator` on `i` leaves every
element whose id differs from `i` at its position, unchanged, and the elements of `c` with
another id are, in their order, a sublist of the result; a successful `deleteTodo` on `i`
leaves exactly the elements of `c` with another id, in their order; and a successful
`updateTodo` on an id that no element carries leaves the whole state as it was. -/
theorem other_ids_untouched (api : ApiService) (s : TodosState) (i : String) :
    (∀ (fetch : Fetch Todo) (updates : JsonObj) (r : Todo),
        api.updateTodo fetch i updates = .ok r →
        (∀ (k : Nat) (t : Todo), s.todos[k]? = some t → t._id ≠ i →
            (updateTodo api fetch s i updates).1.todos[k]? = some t) ∧
          (s.todos.filter fun todo => todo._id != i).Sublist
            (updateTodo api fetch s i updates).1.todos ∧
          ((∀ t ∈ s.todos, t._id ≠ i) → (updateTodo api fetch s i updates).1 = s)) ∧
      (∀ (fetch : Fetch ShareResult) (email : String) (r : ShareResult),
        api.shareTodo fetch i email = .ok r →
        (∀ (k : Nat) (t : Todo), s.todos[k]? = some t → t._id ≠ i →
            (shareTodo api fetch s i email).1.todos[k]? = some t) ∧
          (s.todos.filter fun todo => todo._id != i).Sublist
            (shareTodo api fetch s i email).1.todos) ∧
      (∀ (fetch : Fetch ShareResult) (userId : String) (r : ShareResult),
        api.removeCollaborator fetch i userId = .ok r →
        (∀ (k : Nat) (t : Todo), s.todos[k]? = some t → t._id ≠ i →
            (removeCollaborator api fetch s i userId).1.todos[k]? = some t) ∧
          (s.todos.filter fun todo => todo._id != i).Sublist
            (removeCollaborator api fetch s i userId).1.todos) ∧
      (∀ (α : Type) (fetch : Fetch α) (d : α), api.deleteTodo fetch i = .ok d →
        (deleteTodo api fetch s i).1.todos = s.todos.filter fun todo => todo._id != i) := by
  refine ⟨?_, ?_, ?_, ?_⟩
  · intro fetch updates r h
    rw [updateTodo_ok api fetch s i updates r h]
    refine ⟨fun k t hk hi => patch_get_miss i r s.todos k t hk hi,
      filter_ne_sublist_patch i r s.todos, ?_⟩
    intro habs
    simp only [patch_absent i r s.todos habs]
  · intro fetch email r h
    rw [shareTodo_ok api fetch s i email r h]
    exact ⟨fun k t hk hi => patch_get_miss i r.todo s.todos k t hk hi,
      filter_ne_sublist_patch i r.todo s.todos⟩
  · intro fetch userId r h
    rw [removeCollaborator_ok api fetch s i userId r h]
    exact ⟨fun k t hk hi => patch_get_miss i r.todo s.todos k t hk hi,
      filter_ne_sublist_patch i r.todo s.todos⟩
  · intro α fetch d h
    rw [deleteTodo_ok api fetch s i d h]

theorem other_ids_untouched_witness :
    (updateTodo ⟨none⟩ (answering { otherTodo with _id := "3" })
        ⟨[sampleTodo, otherTodo], true, some "old"⟩ "3" [("text", .str "walk dog")]).1
      = ⟨[sampleTodo, otherTodo], true, some "old"⟩ :=
  ((other_ids_untouched ⟨none⟩ ⟨[sampleTodo, otherTodo], true, some "old"⟩ "3").1
    (answering { otherTodo with _id := "3" }) [("text", .str "walk dog")]
    { otherTodo with _id := "3" } rfl).2.2 (by decide)

/-- C6: a successful `loadTodos` leaves the collection equal to the list the server
returned, whatever the collection was before, and `loadTodos` ends with `loading` false
whether the request succeeded or failed. -/
theorem loadTodos_replaces (api : ApiService) (fetch : Fetch (List Todo)) (s : TodosState) :
    (∀ srv : List Todo, api.getTodos fetch = .ok srv →
        (loadTodos api fetch s).todos = srv ∧
          ∀ s2 : TodosState, (loadTodos api fetch s2).todos = (loadTodos api fetch s).todos) ∧
      (loadTodos api fetch s).loading = false := by
  constructor
  · intro srv h
    simp [loadTodos, h]
  · unfold loadTodos
    cases api.getTodos fetch <;> rfl

theorem loadTodos_replaces_witness :
    (loadTodos ⟨some "tok"⟩ (answering [sampleTodo]) ⟨[otherTodo, otherTodo], false, none⟩).todos
      = [sampleTodo] :=
  ((loadTodos_replaces ⟨some "tok"⟩ (answering [sampleTodo])
    ⟨[otherTodo, otherTodo], false, none⟩).1 [sampleTodo] rfl).1

end Synchronizer

/-! ## The session manager -/

section SessionManager

open AuthProvider

/-- C7: the startup effect, run from the mount state with a stored token for which the
profile request fails, ends with no stored token, no user and `loading` false, and its
promise chain is fulfilled: the failure is not propagated. -/
theorem restoreSession_rejected_token (fetch : Fetch User) (tok : String) (htok : tok ≠ "")
    (e : JsError) (h : ApiService.getProfile ⟨some tok⟩ fetch = .error e) :
    (restoreSession fetch (initial ⟨some tok⟩)).1.localStorage.token = none ∧
      (restoreSession fetch (initial ⟨some tok⟩)).1.user = none ∧
      (restoreSession fetch (initial ⟨some tok⟩)).1.loading = false ∧
      (restoreSession fetch (initial ⟨some tok⟩)).2 = .ok () := by
  have ht : truthy (some tok) = true := by simp [truthy, htok]
  simp [restoreSession, initial, ApiService.new, ApiService.setToken, ht, h]

theorem restoreSession_rejected_token_witness :
    (restoreSession (refusing (some "Token inválido")) (initial ⟨some "stale"⟩)).1.localStorage.token
        = none ∧
      (restoreSession (refusing (some "Token inválido")) (initial ⟨some "stale"⟩)).1.user = none ∧
      (restoreSession (refusing (some "Token inválido")) (initial ⟨some "stale"⟩)).1.loading
        = false ∧
      (restoreSession (refusing (some "Token inválido")) (initial ⟨some "stale"⟩)).2 = .ok () :=
  restoreSession_rejected_token (refusing (some "Token inválido")) "stale" (by decide)
    ⟨"Token inválido"⟩ rfl

/-- C8, as stated, fails: a login answered with the empty string as token succeeds and
leaves no persisted token, although the returned token is the empty string. -/
theorem login_empty_token_not_persisted :
    (login (answering ⟨"", sampleUser⟩) (initial ⟨some "old"⟩) "ana@x.com" "pw").2
        = .ok ⟨"", sampleUser⟩ ∧
      (login (answering ⟨"", sampleUser⟩) (initial ⟨some "old"⟩) "ana@x.com"
        "pw").1.localStorage.token = none ∧
      (login (answering ⟨"", sampleUser⟩) (initial ⟨some "old"⟩) "ana@x.com"
        "pw").1.localStorage.token ≠ some "" :=
  ⟨rfl, rfl, by decide⟩

/-- C8, amended: after a successful `login` or `register` with response `data`, the
in-memory credential is `data.token`, the current user is `data.user`, the persisted token
is `data.token` when that is non-empty and is removed when it is empty, and the operation
returns the whole response `data`. -/
theorem login_register_success (s : Session) (data : AuthData) :
    (∀ (fetch : Fetch AuthData) (email password : String),
        s.api.send fetch (.login email password) = .ok data →
        (login fetch s email password).1.api.token = some data.token ∧
          (login fetch s email password).1.localStorage.token
            = (if data.token = "" then none else some data.token) ∧
          (login fetch s email password).1.user = some data.user ∧
          (login fetch s email password).2 = .ok data) ∧
      (∀ (fetch : Fetch AuthData) (name email password : String),
        s.api.send fetch (.register name email password) = .ok data →
        (register fetch s name email password).1.api.token = some data.token ∧
          (register fetch s name email password).1.localStorage.token
            = (if data.token = "" then none else some data.token) ∧
          (register fetch s name email password).1.user = some data.user ∧
          (register fetch s name email password).2 = .ok data) := by
  constructor
  · intro fetch email password h
    by_cases ht : data.token = "" <;>
      simp [login, ApiService.login, ApiService.setToken, truthy, h, ht]
  · intro fetch name email password h
    by_cases ht : data.token = "" <;>
      simp [register, ApiService.register, ApiService.setToken, truthy, h, ht]

theorem login_register_success_witness :
    (login (answering ⟨"jwt", sampleUser⟩) (initial ⟨none⟩) "ana@x.com" "pw").1.api.token
        = some "jwt" ∧
      (login (answering ⟨"jwt", sampleUser⟩) (initial ⟨none⟩) "ana@x.com"
        "pw").1.localStorage.token = (if "jwt" = "" then none else some "jwt") ∧
      (login (answering ⟨"jwt", sampleUser⟩) (initial ⟨none⟩) "ana@x.com" "pw").1.user
        = some sampleUser ∧
      (login (answering ⟨"jwt", sampleUser⟩) (initial ⟨none⟩) "ana@x.com" "pw").2
        = .ok ⟨"jwt", sampleUser⟩ :=
  (login_register_success (initial ⟨none⟩) ⟨"jwt", sampleUser⟩).1
    (answering ⟨"jwt", sampleUser⟩) "ana@x.com" "pw" rfl

/-- C9: from every session state `logout` leaves no persisted token, no in-memory
credential and no current user, and a second `logout` changes nothing. -/
theorem logout_clears_and_idempotent (s : Session) :
    (logout s).localStorage.token = none ∧
      (logout s).api.token = none ∧
      (logout s).user = none ∧
      logout (logout s) = logout s := by
  simp [logout, ApiService.logout, ApiService.setToken, truthy]

end SessionManager

/-! ## Headers of outgoing requests -/

section RequestHeaders

/-- C10: whatever method of `ApiService` issues the request, `fetch` receives the headers
of `getHeaders`, none of the methods passing headers of its own; these headers hold
`Content-Type: application/json`, and hold `Authorization` exactly when the in-memory
credential is a non-empty string, with value `Bearer ` followed by the credential. -/
theorem request_headers (api : ApiService) (call : ApiCall) :
    call.options.headers = none ∧
      (api.config call.options).headers = api.getHeaders ∧
      (∀ (α : Type) (fetch : Fetch α),
        api.send fetch call = settle (fetch (API_BASE_URL ++ call.endpoint)
          ⟨api.getHeaders, call.options.method, call.options.body⟩)) ∧
      api.getHeaders.lookup "Content-Type" = some "application/json" ∧
      (∀ v : String, api.getHeaders.lookup "Authorization" = some v ↔
        ∃ t : String, api.token = some t ∧ t ≠ "" ∧ v = "Bearer " ++ t) ∧
      (api.getHeaders.lookup "Authorization" = none ↔ truthy api.token = false) ∧
      api.getHeaders.map Prod.fst
        = (if truthy api.token then ["Content-Type", "Authorization"] else ["Content-Type"]) := by
  have hopt : call.options.headers = none := by cases call <;> rfl
  have hcfg : (api.config call.options).headers = api.getHeaders := by
    simp [ApiService.config, hopt]
  refine ⟨hopt, hcfg, ?_, ?_, ?_, ?_, ?_⟩
  · intro α fetch
    simp only [ApiService.send, ApiService.request, ApiService.config, hopt]
  all_goals
    obtain ⟨tok⟩ := api
    cases tok with
    | none => simp [ApiService.getHeaders, truthy, List.lookup]
    | some t =>
        by_cases ht : t = ""
        · simp [ApiService.getHeaders, truthy, List.lookup, ht]
        · have h1 : ("Authorization" == "Content-Type") = false := by decide
          have h2 : ("Content-Type" == "Content-Type") = true := by decide
          have h3 : ("Authorization" == "Authorization") = true := by decide
          simp [ApiService.getHeaders, truthy, List.lookup, ht, h1, h2, h3]
          try exact fun v => eq_comm

end RequestHeaders

/-! ## Failing responses -/

section RequestFailures

open useTodos

theorem settle_failure_message {α : Type} (body : Json) (v : Option Json)
    (hv : body.message = .ok v) :
    (settle (.response (.failure body)) : Except JsError α) = .error ⟨errorText v⟩ := by
  simp only [settle, hv]

/-- C11, as stated, fails: a non-success response whose body is the JSON value `null`
makes `request` fail with the `TypeError` of reading `message` of `null`, not with the
generic message, and one whose body is an object with the empty array as `message` makes it
fail with the empty message. -/
theorem request_failure_null_or_array_message :
    ApiService.request ⟨some "tok"⟩ (refusingWith .null : Fetch ShareResult) "/todos/1/share"
        (ApiCall.shareTodo "1" "bob@x.com").options = .error nullPropertyError ∧
      nullPropertyError.message ≠ "Error en la petición" ∧
      ApiService.request ⟨some "tok"⟩
        (refusingWith (.obj [("message", .arr [])]) : Fetch ShareResult) "/todos/1/share"
        (ApiCall.shareTodo "1" "bob@x.com").options = .error ⟨""⟩ :=
  ⟨rfl, by decide, rfl⟩

/-- C11, amended: when the response has a non-success status and a JSON body, `request`
fails. On the body `null` the failure is the `TypeError` of reading `message` of `null`.
On every other body the message of the failure is the string conversion of the `message`
of the body when that is present and truthy, so that a non-empty string is taken as it
is, and `Error en la petición` when it is absent or falsy. The message is empty only when
`message` is a truthy value whose string conversion is empty, and never when `message` is
a string or absent. -/
theorem request_failure_message {α : Type} (api : ApiService) (fetch : Fetch α)
    (endpoint : String) (options : RequestOptions) (body : Json)
    (h : fetch (API_BASE_URL ++ endpoint) (api.config options) = .response (.failure body)) :
    (body = .null → api.request fetch endpoint options = .error nullPropertyError) ∧
      (body ≠ .null → ∃ v : Option Json, body.message = .ok v) ∧
      (∀ v : Option Json, body.message = .ok v →
        (∀ m : Json, v = some m → m.truthy = true →
            api.request fetch endpoint options = .error ⟨m.toJsString⟩) ∧
          (∀ msg : String, v = some (.str msg) → msg ≠ "" →
            api.request fetch endpoint options = .error ⟨msg⟩) ∧
          ((v = none ∨ ∃ m : Json, v = some m ∧ m.truthy = false) →
            api.request fetch endpoint options = .error ⟨"Error en la petición"⟩) ∧
          ((v = none ∨ ∃ msg : String, v = some (.str msg)) →
            ∃ e : JsError, api.request fetch endpoint options = .error e ∧ e.message ≠ "")) ∧
      (∃ e : JsError, api.request fetch endpoint options = .error e ∧
        (e.message = "" ↔
          ∃ m : Json, body.message = .ok (some m) ∧ m.truthy = true ∧ m.toJsString = "")) := by
  have hreq : api.request fetch endpoint options = settle (.response (.failure body)) := by
    simp only [ApiService.request, h]
  have hgen : "Error en la petición" ≠ "" := by decide
  have hnull : nullPropertyError.message ≠ "" := by decide
  refine ⟨?_, ?_, ?_, ?_⟩
  · intro hb
    rw [hreq, hb]
    rfl
  · intro hb
    cases body with
    | null => exact absurd rfl hb
    | bool b => exact ⟨none, rfl⟩
    | num z shown => exact ⟨none, rfl⟩
    | str t => exact ⟨none, rfl⟩
    | arr items => exact ⟨none, rfl⟩
    | obj props => exact ⟨props.lookup "message", rfl⟩
  · intro v hv
    rw [hreq, settle_failure_message body v hv]
    refine ⟨?_, ?_, ?_, ?_⟩
    · intro m hm ht
      simp [hm, ht, errorText]
    · intro msg hm hne
      simp [hm, errorText, Json.truthy, Json.toJsString, hne]
    · rintro (hm | ⟨m, hm, ht⟩)
      · simp [hm, errorText]
      · simp [hm, ht, errorText]
    · rintro (hm | ⟨msg, hm⟩)
      · exact ⟨_, rfl, by simp [hm, errorText]⟩
      · refine ⟨_, rfl, ?_⟩
        by_cases hne : msg = ""
        · simp [hm, errorText, Json.truthy, hne]
        · simp [hm, errorText, Json.truthy, Json.toJsString, hne]
  · rw [hreq]
    cases hv : body.message with
    | error err =>
        have hb : body = .null := by
          cases body <;> simp [Json.message] at hv ⊢
        subst hb
        refine ⟨nullPropertyError, rfl, ?_⟩
        constructor
        · intro he
          exact absurd he hnull
        · rintro ⟨m, hm, _⟩
          simp [Json.message] at hm
    | ok v =>
        rw [← hv, settle_failure_message body v hv]
        refine ⟨_, rfl, ?_⟩
        cases v with
        | none =>
            constructor
            · intro he
              exact absurd he hgen
            · rintro ⟨m, hm, _⟩
              rw [hv] at hm
              cases hm
        | some m =>
            by_cases ht : m.truthy = true
            · constructor
              · intro he
                refine ⟨m, hv, ht, ?_⟩
                simpa [errorText, ht] using he
              · rintro ⟨m2, hm, _, hs⟩
                rw [hv] at hm
                cases hm
                simpa [errorText, ht] using hs
            · constructor
              · intro he
                simp only [errorText, ht] at he
                exact absurd he hgen
              · rintro ⟨m2, hm, ht2, _⟩
                rw [hv] at hm
                cases hm
                exact absurd ht2 ht

theorem request_failure_message_witness :
    ApiService.request ⟨some "tok"⟩
        (refusing (some "Usuario no encontrado") : Fetch ShareResult) "/todos/1/share"
        (ApiCall.shareTodo "1" "bob@x.com").options = .error ⟨"Usuario no encontrado"⟩ :=
  ((request_failure_message ⟨some "tok"⟩
      (refusing (some "Usuario no encontrado") : Fetch ShareResult) "/todos/1/share"
      (ApiCall.shareTodo "1" "bob@x.com").options
      (.obj [("message", .str "Usuario no encontrado")]) rfl).2.2.1
    (some (.str "Usuario no encontrado")) rfl).2.1 "Usuario no encontrado" rfl (by decide)

end RequestFailures

/-! ## The collaborator search -/

section CollaboratorSearch

open ShareModal

theorem utf16Units_length_ge (c : Char) : 1 ≤ (utf16Units c).length := by
  unfold utf16Units
  split <;> simp

theorem ofString_length_ge (l : List Char) : l.length ≤ (l.flatMap utf16Units).length := by
  induction l with
  | nil => simp
  | cons a m ih =>
      have ha := utf16Units_length_ge a
      simp only [List.flatMap_cons, List.length_append, List.length_cons]
      omega

theorem ofString_length_eq (l : List Char) (h : ∀ ch ∈ l, ch.toNat < 0x10000) :
    (l.flatMap utf16Units).length = l.length := by
  induction l with
  | nil => simp
  | cons a m ih =>
      have ha : a.toNat < 0x10000 := h a (List.mem_cons_self a m)
      have hm := ih fun ch hch => h ch (List.mem_cons_of_mem a hch)
      simp only [List.flatMap_cons, List.length_append, utf16Units, if_pos ha, hm,
        List.length_cons, List.length_nil]
      omega

theorem char_range (c : Char) :
    c.toNat < 0xD800 ∨ (0xDFFF < c.toNat ∧ c.toNat < 0x110000) := by
  have h := c.valid
  simpa [UInt32.isValidChar, Nat.isValidChar, Char.toNat] using h

theorem codePointsOf_units (c : Char) (l : List (Fin 65536)) :
    codePointsOf (utf16Units c ++ l) = (codePointsOf l).map fun cs => c :: cs := by
  have hr := char_range c
  by_cases hc : c.toNat < 0x10000
  · have hval : (Fin.ofNat c.toNat : Fin 65536).val = c.toNat := by
      show c.toNat % 65536 = c.toNat
      omega
    have hh : isHighSurrogate (Fin.ofNat c.toNat : Fin 65536) = false := by
      simp only [isHighSurrogate, hval, Bool.and_eq_false_iff, decide_eq_false_iff_not]
      omega
    have hl : isLowSurrogate (Fin.ofNat c.toNat : Fin 65536) = false := by
      simp only [isLowSurrogate, hval, Bool.and_eq_false_iff, decide_eq_false_iff_not]
      omega
    simp only [utf16Units, if_pos hc, List.singleton_append]
    cases l with
    | nil => simp [codePointsOf, hh, hl, hval]
    | cons v rest => simp [codePointsOf, hh, hl, hval]
  · have hhi : (Fin.ofNat (0xD800 + (c.toNat - 0x10000) / 0x400) : Fin 65536).val
        = 0xD800 + (c.toNat - 0x10000) / 0x400 := by
      show (0xD800 + (c.toNat - 0x10000) / 0x400) % 65536 = _
      omega
    have hlo : (Fin.ofNat (0xDC00 + (c.toNat - 0x10000) % 0x400) : Fin 65536).val
        = 0xDC00 + (c.toNat - 0x10000) % 0x400 := by
      show (0xDC00 + (c.toNat - 0x10000) % 0x400) % 65536 = _
      omega
    have hh : isHighSurrogate (Fin.ofNat (0xD800 + (c.toNat - 0x10000) / 0x400) : Fin 65536)
        = true := by
      simp only [isHighSurrogate, hhi, Bool.and_eq_true, decide_eq_true_eq]
      omega
    have hl : isLowSurrogate (Fin.ofNat (0xDC00 + (c.toNat - 0x10000) % 0x400) : Fin 65536)
        = true := by
      simp only [isLowSurrogate, hlo, Bool.and_eq_true, decide_eq_true_eq]
      omega
    have hback : 0x10000 + (0xD800 + (c.toNat - 0x10000) / 0x400 - 0xD800) * 0x400
        + (0xDC00 + (c.toNat - 0x10000) % 0x400 - 0xDC00) = c.toNat := by
      omega
    simp only [utf16Units, if_neg hc, List.cons_append, List.nil_append, codePointsOf, hh, hl,
      if_true, hhi, hlo, hback, Char.ofNat_toNat]

theorem codePointsOf_flatMap (l : List Char) :
    codePointsOf (l.flatMap utf16Units) = some l := by
  induction l with
  | nil => rfl
  | cons a m ih =>
      rw [List.flatMap_cons, codePointsOf_units, ih]
      rfl

/-- C12, as stated, fails in both halves: the query of the two code units `a` and the lone
surrogate `0xD83D` has length 2, yet `encodeURIComponent` throws on it and no request is
issued; and the query made of the single character U+1F600 has length 2, so a request is
issued for it. -/
theorem searchUsers_lone_surrogate_no_request :
    JsString.length ⟨[0x61, 0xD83D]⟩ = 2 ∧
      (searchUsers ⟨some "tok"⟩ (answering [sampleUser]) initial ⟨[0x61, 0xD83D]⟩).2 = [] ∧
      String.length "😀" = 1 ∧
      (JsString.ofString "😀").codePoints = some "😀" ∧
      (searchUsers ⟨some "tok"⟩ (answering [sampleUser]) initial
        (JsString.ofString "😀")).2.length = 1 :=
  ⟨by decide, by decide, by decide, by decide, by decide⟩

/-- C12, amended: a query of `length` below 2 empties the result list and issues no
request. A query of `length` 2 or more without lone surrogate issues exactly one request,
to `/users/search?q=` followed by its encoding, with the headers of `getHeaders`; one with
a lone surrogate issues none and leaves the result list as it was. The same holds of
`handleEmailChange`. The `length` counts UTF-16 code units: that of a string given by its
characters is at least their number, and is their number when none lies above U+FFFF. -/
theorem searchUsers_threshold (api : ApiService) (fetch : Fetch (List User))
    (s : ShareModalState) (query : JsString) :
    (query.length < 2 →
        (searchUsers api fetch s query).1 = { s with searchResults := [] } ∧
          (searchUsers api fetch s query).2 = [] ∧
          (handleEmailChange api fetch s query).1.searchResults = [] ∧
          (handleEmailChange api fetch s query).2 = []) ∧
      (2 ≤ query.length → ∀ q : String, query.codePoints = some q →
        (searchUsers api fetch s query).2
            = [(API_BASE_URL ++ ("/users/search?q=" ++ encodeURIComponent q),
                ⟨api.getHeaders, none, none⟩)] ∧
          (handleEmailChange api fetch s query).2 = (searchUsers api fetch s query).2) ∧
      (2 ≤ query.length → query.codePoints = none →
        (searchUsers api fetch s query).1 = { s with searching := false } ∧
          (searchUsers api fetch s query).2 = [] ∧
          (handleEmailChange api fetch s query).1.searchResults = s.searchResults ∧
          (handleEmailChange api fetch s query).2 = []) ∧
      (∀ str : String, (JsString.ofString str).codePoints = some str ∧
        str.length ≤ (JsString.ofString str).length ∧
        ((∀ ch ∈ str.toList, ch.toNat < 0x10000) →
          (JsString.ofString str).length = str.length)) := by
  refine ⟨?_, ?_, ?_, ?_⟩
  · intro h
    simp [searchUsers, handleEmailChange, h]
  · intro h q hq
    have h2 : ¬ query.length < 2 := by omega
    have hsent : api.sent (.searchUsers q)
        = (API_BASE_URL ++ ("/users/search?q=" ++ encodeURIComponent q),
            ⟨api.getHeaders, none, none⟩) := rfl
    constructor
    · simp only [searchUsers, h2, if_false, ApiService.searchUsers, hq, hsent]
      cases api.send fetch (.searchUsers q) <;> rfl
    · simp only [handleEmailChange, searchUsers, h2, if_false, ApiService.searchUsers, hq]
      cases api.send fetch (.searchUsers q) <;> rfl
  · intro h hq
    have h2 : ¬ query.length < 2 := by omega
    simp [searchUsers, handleEmailChange, h2, ApiService.searchUsers, hq]
  · intro str
    refine ⟨?_, ofString_length_ge str.toList, ofString_length_eq str.toList⟩
    simp [JsString.codePoints, JsString.ofString, codePointsOf_flatMap]

theorem searchUsers_threshold_witness :
    (searchUsers ⟨none⟩ offline initial (JsString.ofString "a")).2 = [] ∧
      (searchUsers ⟨none⟩ offline initial (JsString.ofString "al")).2
        = [(API_BASE_URL ++ ("/users/search?q=" ++ encodeURIComponent "al"),
            ⟨ApiService.getHeaders ⟨none⟩, none, none⟩)] :=
  ⟨((searchUsers_threshold ⟨none⟩ offline initial (JsString.ofString "a")).1
      (by decide)).2.1,
    ((searchUsers_threshold ⟨none⟩ offline initial (JsString.ofString "al")).2.1
      (by decide) "al" (by decide)).1⟩

end CollaboratorSearch

/-! ## Uniqueness of ids, arrival order, and the error slot -/

section Sequences

open useTodos

theorem patch_ids (id : String) (r : Todo) (l : List Todo) (hr : r._id = id) :
    (patch id r l).map Todo._id = l.map Todo._id := by
  induction l with
  | nil => rfl
  | cons x m ih =>
      simp only [patch, List.map_cons] at ih ⊢
      rw [ih]
      by_cases hx : x._id = id
      · simp [hx, hr]
      · simp [hx]

theorem patch_patch (id : String) (a b : Todo) (l : List Todo) (ha : a._id = id) :
    patch id b (patch id a l) = patch id b l := by
  induction l with
  | nil => rfl
  | cons x m ih =>
      simp only [patch, List.map_cons] at ih ⊢
      rw [ih]
      by_cases hx : x._id = id
      · simp [hx, ha]
      · simp [hx]

theorem keepsIdsApart_step (api : ApiService) (s : TodosState) (e : TodoEvent)
    (hs : (s.todos.map Todo._id).Nodup) (he : e.keepsIdsApart api s) :
    ((e.apply api s).todos.map Todo._id).Nodup := by
  cases e with
  | load fetch =>
      simp only [TodoEvent.apply, TodoEvent.keepsIdsApart, loadTodos] at he ⊢
      cases hres : api.getTodos fetch with
      | ok srv => simpa using he srv hres
      | error err => simpa using hs
  | create fetch text =>
      simp only [TodoEvent.apply, TodoEvent.keepsIdsApart, addTodo] at he ⊢
      cases hres : api.createTodo fetch text with
      | ok t =>
          have hnot := he t hres
          simp only [List.map_append, List.map_cons, List.map_nil]
          rw [List.nodup_append]
          refine ⟨hs, List.nodup_singleton _, ?_⟩
          intro a ha hb
          rw [List.mem_singleton] at hb
          exact hnot (hb ▸ ha)
      | error err => simpa using hs
  | update fetch id updates =>
      simp only [TodoEvent.apply, TodoEvent.keepsIdsApart, updateTodo] at he ⊢
      cases hres : api.updateTodo fetch id updates with
      | ok r =>
          have hids := patch_ids id r s.todos (he r hres)
          show ((patch id r s.todos).map Todo._id).Nodup
          rw [hids]
          exact hs
      | error err => simpa using hs
  | delete fetch id =>
      simp only [TodoEvent.apply, deleteTodo]
      cases api.deleteTodo fetch id with
      | ok d => exact hs.sublist (List.filter_sublist s.todos |>.map Todo._id)
      | error err => simpa using hs
  | share fetch todoId email =>
      simp only [TodoEvent.apply, TodoEvent.keepsIdsApart, shareTodo] at he ⊢
      cases hres : api.shareTodo fetch todoId email with
      | ok r =>
          have hids := patch_ids todoId r.todo s.todos (he r hres)
          show ((patch todoId r.todo s.todos).map Todo._id).Nodup
          rw [hids]
          exact hs
      | error err => simpa using hs
  | removeCollaborator fetch todoId userId =>
      simp only [TodoEvent.apply, TodoEvent.keepsIdsApart, removeCollaborator] at he ⊢
      cases hres : api.removeCollaborator fetch todoId userId with
      | ok r =>
          have hids := patch_ids todoId r.todo s.todos (he r hres)
          show ((patch todoId r.todo s.todos).map Todo._id).Nodup
          rw [hids]
          exact hs
      | error err => simpa using hs

theorem keepsIdsApart_run (api : ApiService) (es : List TodoEvent) (s : TodosState)
    (hs : (s.todos.map Todo._id).Nodup) (h : keepsIdsApartFrom api s es) :
    ((run api es s).todos.map Todo._id).Nodup := by
  induction es generalizing s with
  | nil => simpa [run] using hs
  | cons e rest ih =>
      simp only [keepsIdsApartFrom] at h
      simp only [run]
      exact ih (e.apply api s) (keepsIdsApart_step api s e hs h.1) h.2

/-- C13, as stated, fails: two creates that the server answers with the same record leave
two elements with the same id in a collection that started empty. -/
theorem run_two_creates_same_id :
    (run ⟨none⟩ [.create (answering sampleTodo) "buy milk",
        .create (answering sampleTodo) "buy milk"] initial).todos
        = [sampleTodo, sampleTodo] ∧
      ¬ ((run ⟨none⟩ [.create (answering sampleTodo) "buy milk",
        .create (answering sampleTodo) "buy milk"] initial).todos.map Todo._id).Nodup :=
  ⟨rfl, by decide⟩

/-- C13, amended: starting from the empty collection, after every sequence of completed
operations in which each loaded list has pairwise distinct ids, each created task has an
id the collection does not hold yet, and each record returned for an update, share or
collaborator removal of `i` carries the id `i`, no two elements have the same id. -/
theorem ids_unique_from_empty (api : ApiService) (es : List TodoEvent)
    (h : keepsIdsApartFrom api initial es) :
    ((run api es initial).todos.map Todo._id).Nodup :=
  keepsIdsApart_run api es initial (by simp [initial]) h

theorem ids_unique_from_empty_witness :
    ((run ⟨none⟩ [.create (answering sampleTodo) "buy milk",
        .create (answering otherTodo) "walk dog", .delete (answering ()) "1"]
        initial).todos.map Todo._id).Nodup :=
  ids_unique_from_empty ⟨none⟩ [.create (answering sampleTodo) "buy milk",
    .create (answering otherTodo) "walk dog", .delete (answering ()) "1"]
    ⟨by intro t ht; cases ht; decide, by intro t ht; cases ht; decide, trivial, trivial⟩

/-- C14, as stated, fails: when the response that arrives first carries another id than
the one that was updated, the element it replaces no longer matches, and the response that
arrives last is not stored. -/
theorem first_response_other_id_blocks_last :
    (updateTodo ⟨none⟩ (answering { sampleTodo with _id := "9" }) ⟨[sampleTodo], false, none⟩
        "1" [("text", .str "buy milk")]).2 = .ok { sampleTodo with _id := "9" } ∧
      (updateTodo ⟨none⟩ (answering { sampleTodo with completed := true })
        (updateTodo ⟨none⟩ (answering { sampleTodo with _id := "9" })
          ⟨[sampleTodo], false, none⟩ "1" [("text", .str "buy milk")]).1
        "1" [("completed", .bool true)]).1.todos = [{ sampleTodo with _id := "9" }] ∧
      (updateTodo ⟨none⟩ (answering { sampleTodo with completed := true })
        ⟨[sampleTodo], false, none⟩ "1" [("completed", .bool true)]).1.todos
        = [{ sampleTodo with completed := true }] ∧
      [{ sampleTodo with _id := "9" }] ≠ [{ sampleTodo with completed := true }] :=
  ⟨rfl, rfl, rfl, by decide⟩

/-- C14, amended: for two successful updates of task `i` whose first-arriving response `a`
carries the id `i`, applying `a` and then `b` leaves the same state as applying `b` alone,
and every position that held an element with id `i` then holds `b`. The functions take
the responses in arrival order; nothing in them records the order of sending. -/
theorem last_response_wins (api : ApiService) (s : TodosState) (i : String)
    (fa fb : Fetch Todo) (ua ub : JsonObj) (a b : Todo)
    (ha : api.updateTodo fa i ua = .ok a) (hb : api.updateTodo fb i ub = .ok b)
    (hid : a._id = i) :
    (updateTodo api fb (updateTodo api fa s i ua).1 i ub).1 = (updateTodo api fb s i ub).1 ∧
      ∀ (k : Nat) (t : Todo), s.todos[k]? = some t → t._id = i →
        (updateTodo api fb (updateTodo api fa s i ua).1 i ub).1.todos[k]? = some b := by
  have hstate : (updateTodo api fb (updateTodo api fa s i ua).1 i ub).1
      = (updateTodo api fb s i ub).1 := by
    rw [updateTodo_ok api fa s i ua a ha, updateTodo_ok api fb _ i ub b hb,
      updateTodo_ok api fb s i ub b hb]
    simp only [patch_patch i a b s.todos hid]
  refine ⟨hstate, ?_⟩
  intro k t hk ht
  rw [hstate, updateTodo_ok api fb s i ub b hb]
  exact patch_get_hit i b s.todos k t hk ht

theorem last_response_wins_witness :
    (updateTodo ⟨none⟩ (answering { sampleTodo with completed := true })
        (updateTodo ⟨none⟩ (answering { sampleTodo with text := "buy bread" })
          ⟨[sampleTodo, otherTodo], false, none⟩ "1" [("text", .str "buy bread")]).1
        "1" [("completed", .bool true)]).1
      = (updateTodo ⟨none⟩ (answering { sampleTodo with completed := true })
        ⟨[sampleTodo, otherTodo], false, none⟩ "1" [("completed", .bool true)]).1 :=
  (last_response_wins ⟨none⟩ ⟨[sampleTodo, otherTodo], false, none⟩ "1"
    (answering { sampleTodo with text := "buy bread" })
    (answering { sampleTodo with completed := true })
    [("text", .str "buy bread")] [("completed", .bool true)]
    { sampleTodo with text := "buy bread" } { sampleTodo with completed := true }
    rfl rfl rfl).1

/-- C15: after a failing `loadTodos`, `addTodo`, `updateTodo`, `deleteTodo`, `shareTodo` or
`removeCollaborator` the error slot holds the message of that failure, whatever it held
before, and each of them but `loadTodos` rejects with the failure. -/
theorem failing_call_sets_error (api : ApiService) (s : TodosState) :
    (∀ (fetch : Fetch (List Todo)) (e : JsError), api.getTodos fetch = .error e →
        (loadTodos api fetch s).error = some e.message) ∧
      (∀ (fetch : Fetch Todo) (text : String) (e : JsError),
        api.createTodo fetch text = .error e →
        (addTodo api fetch s text).1.error = some e.message ∧
          (addTodo api fetch s text).2 = .error e) ∧
      (∀ (fetch : Fetch Todo) (id : String) (updates : JsonObj) (e : JsError),
        api.updateTodo fetch id updates = .error e →
        (updateTodo api fetch s id updates).1.error = some e.message ∧
          (updateTodo api fetch s id updates).2 = .error e) ∧
      (∀ (α : Type) (fetch : Fetch α) (id : String) (e : JsError),
        api.deleteTodo fetch id = .error e →
        (deleteTodo api fetch s id).1.error = some e.message ∧
          (deleteTodo api fetch s id).2 = .error e) ∧
      (∀ (fetch : Fetch ShareResult) (todoId email : String) (e : JsError),
        api.shareTodo fetch todoId email = .error e →
        (shareTodo api fetch s todoId email).1.error = some e.message ∧
          (shareTodo api fetch s todoId email).2 = .error e) ∧
      (∀ (fetch : Fetch ShareResult) (todoId userId : String) (e : JsError),
        api.removeCollaborator fetch todoId userId = .error e →
        (removeCollaborator api fetch s todoId userId).1.error = some e.message ∧
          (removeCollaborator api fetch s todoId userId).2 = .error e) := by
  refine ⟨?_, ?_, ?_, ?_, ?_, ?_⟩
  · intro fetch e h
    simp [loadTodos, h]
  · intro fetch text e h
    simp [addTodo, h]
  · intro fetch id updates e h
    simp [updateTodo, h]
  · intro α fetch id e h
    simp [deleteTodo, h]
  · intro fetch todoId email e h
    simp [shareTodo, h]
  · intro fetch todoId userId e h
    simp [removeCollaborator, h]

theorem failing_call_sets_error_witness :
    (addTodo ⟨none⟩ (refusing (some "Texto requerido"))
        ⟨[sampleTodo], false, some "Failed to fetch"⟩ "").1.error = some "Texto requerido" ∧
      (addTodo ⟨none⟩ (refusing (some "Texto requerido"))
        ⟨[sampleTodo], false, some "Failed to fetch"⟩ "").2 = .error ⟨"Texto requerido"⟩ :=
  (failing_call_sets_error ⟨none⟩ ⟨[sampleTodo], false, some "Failed to fetch"⟩).2.1
    (refusing (some "Texto requerido")) "" ⟨"Texto requerido"⟩ rfl

/-- C16: a response whose body is not JSON makes `request` fail with the parse error
whatever its status, a success status included; a `deleteTodo` answered so rejects, leaves
the collection as it was, the element with that id included, and records the message. -/
theorem unparsable_body_fails {α : Type} (api : ApiService) (fetch : Fetch α) (ok : Bool)
    (err : JsError) :
    (∀ (endpoint : String) (options : RequestOptions),
        fetch (API_BASE_URL ++ endpoint) (api.config options) = .response (.unparsable ok err) →
        api.request fetch endpoint options = .error err) ∧
      (∀ (s : TodosState) (id : String),
        fetch (API_BASE_URL ++ ("/todos/" ++ id)) (api.config (ApiCall.deleteTodo id).options)
            = .response (.unparsable ok err) →
        (deleteTodo api fetch s id).2 = .error err ∧
          (deleteTodo api fetch s id).1.todos = s.todos ∧
          (deleteTodo api fetch s id).1.error = some err.message ∧
          ∀ t ∈ s.todos, t._id = id → t ∈ (deleteTodo api fetch s id).1.todos) := by
  constructor
  · intro endpoint options h
    simp only [ApiService.request, h, settle]
  · intro s id h
    have hdel : api.deleteTodo fetch id = .error err := by
      simp only [ApiService.deleteTodo, ApiService.send, ApiService.request, ApiCall.endpoint,
        h, settle]
    have hst : deleteTodo api fetch s id = ({ s with error := some err.message }, .error err) := by
      simp [deleteTodo, hdel]
    rw [hst]
    exact ⟨rfl, rfl, rfl, fun t ht _ => ht⟩

theorem unparsable_body_fails_witness :
    (deleteTodo ⟨some "tok"⟩ (noContent : Fetch Unit) ⟨[sampleTodo, otherTodo], false, none⟩
        "1").2 = .error ⟨"Unexpected end of JSON input"⟩ ∧
      (deleteTodo ⟨some "tok"⟩ (noContent : Fetch Unit) ⟨[sampleTodo, otherTodo], false, none⟩
        "1").1.todos = [sampleTodo, otherTodo] :=
  have h := (unparsable_body_fails ⟨some "tok"⟩ (noContent : Fetch Unit) true
    ⟨"Unexpected end of JSON input"⟩).2 ⟨[sampleTodo, otherTodo], false, none⟩ "1" rfl
  ⟨h.1, h.2.1⟩

theorem mutatedOk_keeps_error (api : ApiService) (s : TodosState) (e : TodoEvent)
    (h : e.mutatedOk api = true) : (e.apply api s).error = s.error := by
  cases e with
  | load fetch => simp [TodoEvent.mutatedOk] at h
  | create fetch text =>
      simp only [TodoEvent.mutatedOk] at h
      simp only [TodoEvent.apply, addTodo]
      cases hres : api.createTodo fetch text <;> simp_all [succeeded]
  | update fetch id updates =>
      simp only [TodoEvent.mutatedOk] at h
      simp only [TodoEvent.apply, updateTodo]
      cases hres : api.updateTodo fetch id updates <;> simp_all [succeeded]
  | delete fetch id =>
      simp only [TodoEvent.mutatedOk] at h
      simp only [TodoEvent.apply, deleteTodo]
      cases hres : api.deleteTodo fetch id <;> simp_all [succeeded]
  | share fetch todoId email =>
      simp only [TodoEvent.mutatedOk] at h
      simp only [TodoEvent.apply, shareTodo]
      cases hres : api.shareTodo fetch todoId email <;> simp_all [succeeded]
  | removeCollaborator fetch todoId userId =>
      simp only [TodoEvent.mutatedOk] at h
      simp only [TodoEvent.apply, removeCollaborator]
      cases hres : api.removeCollaborator fetch todoId userId <;> simp_all [succeeded]

theorem mutatedOk_run_keeps_error (api : ApiService) (es : List TodoEvent) (s : TodosState)
    (h : ∀ e ∈ es, e.mutatedOk api = true) : (run api es s).error = s.error := by
  induction es generalizing s with
  | nil => rfl
  | cons e rest ih =>
      simp only [run]
      rw [ih (e.apply api s) fun x hx => h x (List.mem_cons_of_mem e hx)]
      exact mutatedOk_keeps_error api s e (h e (List.mem_cons_self e rest))

theorem mutating_never_clears (api : ApiService) (s : TodosState) (e : TodoEvent)
    (hload : ∀ fetch, e ≠ .load fetch) (hs : s.error ≠ none) :
    (e.apply api s).error ≠ none := by
  cases e with
  | load fetch => exact absurd rfl (hload fetch)
  | create fetch text =>
      simp only [TodoEvent.apply, addTodo]
      cases api.createTodo fetch text <;> simp [hs]
  | update fetch id updates =>
      simp only [TodoEvent.apply, updateTodo]
      cases api.updateTodo fetch id updates <;> simp [hs]
  | delete fetch id =>
      simp only [TodoEvent.apply, deleteTodo]
      cases api.deleteTodo fetch id <;> simp [hs]
  | share fetch todoId email =>
      simp only [TodoEvent.apply, shareTodo]
      cases api.shareTodo fetch todoId email <;> simp [hs]
  | removeCollaborator fetch todoId userId =>
      simp only [TodoEvent.apply, removeCollaborator]
      cases api.removeCollaborator fetch todoId userId <;> simp [hs]

/-- C18: a successful `addTodo`, `updateTodo`, `deleteTodo`, `shareTodo` or
`removeCollaborator` leaves the error slot as it was, and so does every sequence of them;
none of the five, failing or not, ever empties a slot that holds a message; `loadTodos`
drops the old message: after it the slot is `null` on success and holds the message of
the new failure otherwise. -/
theorem success_keeps_error (api : ApiService) (s : TodosState) :
    (∀ e : TodoEvent, e.mutatedOk api = true → (e.apply api s).error = s.error) ∧
      (∀ es : List TodoEvent, (∀ e ∈ es, e.mutatedOk api = true) →
        (run api es s).error = s.error) ∧
      (∀ e : TodoEvent, (∀ fetch, e ≠ .load fetch) → s.error ≠ none →
        (e.apply api s).error ≠ none) ∧
      (∀ (fetch : Fetch (List Todo)) (srv : List Todo), api.getTodos fetch = .ok srv →
        (loadTodos api fetch s).error = none) ∧
      (∀ (fetch : Fetch (List Todo)) (e : JsError), api.getTodos fetch = .error e →
        (loadTodos api fetch s).error = some e.message) := by
  refine ⟨mutatedOk_keeps_error api s, fun es => mutatedOk_run_keeps_error api es s,
    mutating_never_clears api s, ?_, ?_⟩
  · intro fetch srv h
    simp [loadTodos, h]
  · intro fetch e h
    simp [loadTodos, h]

theorem success_keeps_error_witness :
    (run ⟨none⟩ [.create (answering otherTodo) "walk dog",
        .update (answering { sampleTodo with completed := true }) "1"
          [("completed", .bool true)],
        .delete (answering ()) "2"]
        ⟨[sampleTodo], false, some "Failed to fetch"⟩).error = some "Failed to fetch" :=
  (success_keeps_error ⟨none⟩ ⟨[sampleTodo], false, some "Failed to fetch"⟩).2.1
    [.create (answering otherTodo) "walk dog",
      .update (answering { sampleTodo with completed := true }) "1"
        [("completed", .bool true)],
      .delete (answering ()) "2"]
    (by intro e he; simp only [List.mem_cons, List.mem_singleton, List.not_mem_nil,
          or_false] at he; rcases he with rfl | rfl | rfl <;> rfl)

end Sequences

/-! ## The rejected credential stays in memory -/

section StaleCredential

open AuthProvider

theorem sent_authorization (api : ApiService) (tok : String) (htok : tok ≠ "")
    (hapi : api.token = some tok) (call : ApiCall) :
    (api.sent call).2.headers.lookup "Authorization" = some ("Bearer " ++ tok) := by
  have hopt : call.options.headers = none := by cases call <;> rfl
  obtain ⟨t⟩ := api
  simp only at hapi
  subst hapi
  have h1 : ("Authorization" == "Content-Type") = false := by decide
  have h3 : ("Authorization" == "Authorization") = true := by decide
  simp [ApiService.sent, ApiService.config, hopt, ApiService.getHeaders, truthy, htok,
    List.lookup, h1, h3]

theorem failed_attempt_keeps_session (s : Session) (a : AuthAttempt)
    (h : succeeded (a.apply s).2 = false) : (a.apply s).1 = s := by
  cases a with
  | login fetch email password =>
      simp only [AuthAttempt.apply, AuthProvider.login, ApiService.login] at h ⊢
      cases hres : s.api.send fetch (.login email password) <;> simp_all [succeeded]
  | register fetch name email password =>
      simp only [AuthAttempt.apply, AuthProvider.register, ApiService.register] at h ⊢
      cases hres : s.api.send fetch (.register name email password) <;> simp_all [succeeded]

theorem failed_attempts_keep_token (tok : String) (htok : tok ≠ "") (as : List AuthAttempt)
    (hfail : ∀ a ∈ as, ∀ s : Session, s.api.token = some tok → succeeded (a.apply s).2 = false)
    (s : Session) (hs : s.api.token = some tok) :
    (attempts as s).1 = s ∧
      ∀ sent ∈ (attempts as s).2,
        sent.2.headers.lookup "Authorization" = some ("Bearer " ++ tok) := by
  induction as generalizing s with
  | nil => simp [attempts]
  | cons a rest ih =>
      have hstep : (a.apply s).1 = s :=
        failed_attempt_keeps_session s a (hfail a (List.mem_cons_self a rest) s hs)
      have hrest := ih (fun x hx => hfail x (List.mem_cons_of_mem a hx)) s hs
      simp only [attempts, hstep]
      refine ⟨hrest.1, ?_⟩
      intro sent hsent
      rcases List.mem_cons.mp hsent with rfl | hmem
      · cases a with
        | login fetch email password => exact sent_authorization s.api tok htok hs _
        | register fetch name email password => exact sent_authorization s.api tok htok hs _
      · exact hrest.2 sent hmem

/-- C17: after the startup effect has run with a stored token for which the profile
request fails, the persisted entry is gone but the in-memory credential is still that
token: every request made from that state carries `Authorization: Bearer` followed by
it, and so does every request of every run of failing `login` and `register` calls,
which leave the session as it was. -/
theorem rejected_token_stays_in_memory (fetch : Fetch User) (tok : String) (htok : tok ≠ "")
    (e : JsError) (h : ApiService.getProfile ⟨some tok⟩ fetch = .error e) :
    (restoreSession fetch (initial ⟨some tok⟩)).1.api.token = some tok ∧
      (restoreSession fetch (initial ⟨some tok⟩)).1.localStorage.token = none ∧
      (∀ call : ApiCall,
        ((restoreSession fetch (initial ⟨some tok⟩)).1.api.sent call).2.headers.lookup
          "Authorization" = some ("Bearer " ++ tok)) ∧
      (∀ as : List AuthAttempt,
        (∀ a ∈ as, ∀ s : Session, s.api.token = some tok →
          succeeded (a.apply s).2 = false) →
        (attempts as (restoreSession fetch (initial ⟨some tok⟩)).1).1
            = (restoreSession fetch (initial ⟨some tok⟩)).1 ∧
          ∀ sent ∈ (attempts as (restoreSession fetch (initial ⟨some tok⟩)).1).2,
            sent.2.headers.lookup "Authorization" = some ("Bearer " ++ tok)) := by
  have ht : truthy (some tok) = true := by simp [truthy, htok]
  have hst : (restoreSession fetch (initial ⟨some tok⟩)).1
      = { api := ⟨some tok⟩, localStorage := ⟨none⟩, user := none, loading := false } := by
    simp [restoreSession, initial, ApiService.new, ApiService.setToken, ht, h]
  rw [hst]
  refine ⟨rfl, rfl, fun call => sent_authorization _ tok htok rfl call, ?_⟩
  intro as hfail
  exact failed_attempts_keep_token tok htok as hfail _ rfl

theorem rejected_token_stays_in_memory_witness :
    (restoreSession (refusing (some "Token inválido")) (initial ⟨some "stale"⟩)).1.api.token
        = some "stale" ∧
      ((restoreSession (refusing (some "Token inválido")) (initial ⟨some "stale"⟩)).1.api.sent
        (.login "ana@x.com" "pw")).2.headers.lookup "Authorization" = some ("Bearer " ++ "stale") :=
  have h := rejected_token_stays_in_memory (refusing (some "Token inválido")) "stale"
    (by decide) ⟨"Token inválido"⟩ rfl
  ⟨h.1, h.2.2.1 (.login "ana@x.com" "pw")⟩

end StaleCredential

end FrontTodoList
